import Mathlib

/-!
Verification of the installation-orchestration core of the
Simple-Launcher-Installer program (src/main.rs), via a shallow embedding.

External effects (process spawning, the filesystem seen by the downloader
and the installers, interactive answers) are supplied through explicit
"world" records: each fallible external operation the code performs is one
field, read in the order the code performs it.  The functions below mirror
the control flow of the Rust source line by line; traces record the
observable actions (wine invocations, copies, removal offers) that the
claims speak about.
-/

namespace SLI

/-- Exit status of a finished child process: the numeric exit code, or
`none` when the process was terminated by a signal (Rust's
`ExitStatus::code()` returning `None`). -/
abbrev ExitCode := Option Int

/-- External world consumed by `download_file` (src/main.rs:88-151).
Each field models one external operation, in the order the code performs
it.  `Except.error e` / `some e` mean the operation failed with message
`e`; exit codes of the external tools are `Int`s. -/
structure DlWorld where
  /-- State of the destination file before the call: `none` if absent,
  `some n` if present with size `n` bytes. -/
  destPrior : Option Nat
  /-- `fs::create_dir_all` on the destination's parent. -/
  mkParent : Option String
  /-- `Command::new("which").arg("curl").status().is_ok()`: whether the
  `which` process could be SPAWNED (its exit code is never inspected). -/
  whichCurlOk : Bool
  /-- Same for the `wget` probe. -/
  whichWgetOk : Bool
  /-- Running `curl -L -o dest url`: spawn error, or exit code. -/
  curlRun : Except String Int
  /-- Running `wget -O dest url`: spawn error, or exit code. -/
  wgetRun : Except String Int
  /-- `client.get(url).send()`. -/
  send : Except String Unit
  /-- `fs::File::create(destination)`. -/
  createFile : Option String
  /-- `response.bytes()`: body of the given length, or a read error. -/
  bytesRes : Except String Nat
  /-- `file.write_all(&content)`. -/
  writeRes : Option String
  /-- Destination state left behind by a failed (non-zero exit) curl run:
  behaviour of the external tool, not of this program. -/
  curlFailDest : Option Nat
  /-- Destination state left behind by a failed wget run. -/
  wgetFailDest : Option Nat
  /-- Size of the remote resource, written by a successful external tool. -/
  remoteLen : Nat

/-- Observable outcome of one `download_file` call: its result, the state
of the destination file afterwards, and how many network transfers were
started (an external download tool actually running, or the in-process
HTTP request being sent). -/
structure DlTrace where
  result : Except String Unit
  dest : Option Nat
  networkOps : Nat
deriving Repr

/-- Model of `download_file` (src/main.rs:88-151).  Note the source tests
`Command::new("which").arg("curl").status().is_ok()`, which is true
whenever the `which` binary itself could be spawned, regardless of
whether it found curl; the model reproduces that condition faithfully. -/
def download_file (w : DlWorld) : DlTrace :=
  match w.destPrior with
  | some n => { result := Except.ok (), dest := some n, networkOps := 0 }
  | none =>
    match w.mkParent with
    | some e =>
      { result := Except.error ("Failed to create directory: " ++ e)
        dest := none, networkOps := 0 }
    | none =>
      if w.whichCurlOk then
        match w.curlRun with
        | Except.error e =>
          { result := Except.error ("Failed to execute curl: " ++ e)
            dest := none, networkOps := 0 }
        | Except.ok c =>
          if c = 0 then
            { result := Except.ok (), dest := some w.remoteLen, networkOps := 1 }
          else
            { result := Except.error ("curl failed with exit code: " ++ toString c)
              dest := w.curlFailDest, networkOps := 1 }
      else if w.whichWgetOk then
        match w.wgetRun with
        | Except.error e =>
          { result := Except.error ("Failed to execute wget: " ++ e)
            dest := none, networkOps := 0 }
        | Except.ok c =>
          if c = 0 then
            { result := Except.ok (), dest := some w.remoteLen, networkOps := 1 }
          else
            { result := Except.error ("wget failed with exit code: " ++ toString c)
              dest := w.wgetFailDest, networkOps := 1 }
      else
        match w.send with
        | Except.error e =>
          { result := Except.error ("Failed to download file: " ++ e)
            dest := none, networkOps := 1 }
        | Except.ok _ =>
          match w.createFile with
          | some e =>
            { result := Except.error ("Failed to create file: " ++ e)
              dest := none, networkOps := 1 }
          | none =>
            match w.bytesRes with
            | Except.error e =>
              { result := Except.error ("Failed to read response bytes: " ++ e)
                dest := some 0, networkOps := 1 }
            | Except.ok n =>
              match w.writeRes with
              | some e =>
                { result := Except.error ("Failed to write to file: " ++ e)
                  dest := some 0, networkOps := 1 }
              | none =>
                { result := Except.ok (), dest := some n, networkOps := 1 }

/-- One invocation of the compatibility-layer binary: executable, argument
list, and environment overlay in the order the source sets them. -/
structure WineAttempt where
  exe : String
  args : List String
  env : List (String × String)
deriving Repr

/-- Observable trace of one installer run (`install_battlenet` /
`install_hoyoplay`): every wine invocation made, whether the post-install
discovery probe ran, whether the tree copy was invoked, whether removal of
the sandbox original was offered as a yes/no decision, whether removal was
actually attempted, and the function's result. -/
structure InstallTrace where
  attempts : List WineAttempt
  discoveryRan : Bool
  copyInvoked : Bool
  removalOffered : Bool
  removalAttempted : Bool
  result : Except String Unit
deriving Repr

/-- Trace of a run that ended in an early error, before post-install
discovery. -/
def errTrace (atts : List WineAttempt) (e : String) : InstallTrace :=
  { attempts := atts, discoveryRan := false, copyInvoked := false
    removalOffered := false, removalAttempted := false
    result := Except.error e }

/-- The full environment overlay set for the silent Battle.net attempt
(src/main.rs:197-203) and for the single HoYoPlay attempt
(src/main.rs:378-384), in source order. -/
def wineFullEnv (home : String) : List (String × String) :=
  [("WINEPREFIX", home ++ "/.wine"),
   ("WINEDEBUG", "-all"),
   ("MANGOHUD", "0"),
   ("DISABLE_MANGOHUD", "1"),
   ("WINEDLLOVERRIDES", "mscoree,mshtml="),
   ("DISPLAY", ":99"),
   ("DISABLE_LAYER_AMD_SWITCHABLE_GRAPHICS_1", "1")]

/-- The environment overlay of the interactive Battle.net attempt
(src/main.rs:222-226), in source order. -/
def wineInteractiveEnv (home : String) : List (String × String) :=
  [("WINEPREFIX", home ++ "/.wine"),
   ("WINEDEBUG", "-all"),
   ("MANGOHUD", "0"),
   ("DISABLE_MANGOHUD", "1"),
   ("DISABLE_LAYER_AMD_SWITCHABLE_GRAPHICS_1", "1")]

/-- `app_paths.battlenet_installer` (src/main.rs:679). -/
def bnetInstaller (home : String) : String :=
  home ++ "/.battlenet/Battle.net-Setup.exe"

/-- `app_paths.hoyoplay_installer` (src/main.rs:680). -/
def hoyoInstaller (home : String) : String :=
  home ++ "/.hoyoplay/HoYoPlay-Setup.exe"

/-- The silent Battle.net wine invocation (src/main.rs:195-208). -/
def bnetSilentAttempt (winePath home : String) : WineAttempt :=
  { exe := winePath
    args := [bnetInstaller home, "--lang=enUS",
             "--installpath=\"C:\\Program Files (x86)\\Battle.net\""]
    env := wineFullEnv home }

/-- The interactive Battle.net wine invocation (src/main.rs:220-229):
installer path as the only argument. -/
def bnetInteractiveAttempt (winePath home : String) : WineAttempt :=
  { exe := winePath
    args := [bnetInstaller home]
    env := wineInteractiveEnv home }

/-- The single HoYoPlay wine invocation (src/main.rs:376-387). -/
def hoyoAttempt (winePath home : String) : WineAttempt :=
  { exe := winePath
    args := [hoyoInstaller home]
    env := wineFullEnv home }

/-- The fixed ordered candidate list probed by Battle.net post-install
discovery (src/main.rs:262-267). -/
def bnetLocations (home : String) : List String :=
  [home ++ "/.wine/drive_c/Program Files/Battle.net",
   home ++ "/.wine/drive_c/Program Files (x86)/Battle.net",
   home ++ "/.wine/drive_c/Games/Battle.net",
   home ++ "/.wine/drive_c/Blizzard/Battle.net"]

/-- The source sandbox directory HoYoPlay's post-install copy reads from
(src/main.rs:422). -/
def hoyoSrc (home : String) : String :=
  home ++ "/.wine/drive_c/Program Files/HoYoPlay"

/-- The ASCII whitespace characters stripped by Rust's `str::trim` (its
Unicode additions are irrelevant to the inputs compared here). -/
def isTrimWs (c : Char) : Bool :=
  c = ' ' || c = '\t' || c = '\n' || c = '\x0b' || c = '\x0c' || c = '\r'

/-- Rust's `str::trim`: strip whitespace from both ends. -/
def rustTrim (s : String) : String :=
  String.mk (((s.data.dropWhile isTrimWs).reverse.dropWhile isTrimWs).reverse)

/-- Rust's `str::to_lowercase`, restricted to its ASCII action (the
answers are only compared against `"yes"` and `"y"`). -/
def lowerStr (s : String) : String :=
  String.mk (s.data.map Char.toLower)

/-- `input.trim().to_lowercase() == "yes" || == "y"`: the acceptance test
applied to every yes/no answer in the source. -/
def isYes (s : String) : Bool :=
  lowerStr (rustTrim s) = "yes" || lowerStr (rustTrim s) = "y"

/-- External world consumed by `install_battlenet` (src/main.rs:154-331),
one field per external operation in source order.  The recursive tree
copy and the original-directory removal are abstracted to their results
(`none` = success), as the installer only branches on those. -/
structure BnetWorld where
  /-- `fs::create_dir_all(home/.battlenet)`. -/
  mkBnetDir : Option String
  /-- World threaded into the `download_file` call for the installer. -/
  dl : DlWorld
  /-- The line typed at the installation-directory prompt (untrimmed). -/
  installDirInput : String
  /-- `fs::create_dir_all(install_dir)`. -/
  mkInstallDir : Option String
  /-- Silent wine run: spawn error, or exit status. -/
  silentRun : Except String ExitCode
  /-- Interactive wine run: spawn error, or exit status. -/
  interactiveRun : Except String ExitCode
  /-- Answer to "Would you like to continue anyway?" (untrimmed). -/
  continueAnswer : String
  /-- `location.exists() && location.is_dir()` for the discovery probes. -/
  locIsDir : String → Bool
  /-- Result of `copy_dir_recursive` to the chosen destination. -/
  copyRes : Option String
  /-- Answer to "delete the original files?" (untrimmed). -/
  deleteAnswer : String
  /-- Result of `fs::remove_dir_all(source_path)` (only printed). -/
  deleteRes : Option String

/-- Post-install discovery and relocation for Battle.net
(src/main.rs:261-331): probe the candidate locations, copy when the found
location differs from the requested destination, offer removal after a
successful copy; neither a declined removal, a failed removal, nor a
failed copy is an error. -/
def bnetPost (w : BnetWorld) (home installDir : String)
    (atts : List WineAttempt) : InstallTrace :=
  match (bnetLocations home).find? w.locIsDir with
  | some src =>
    if src ≠ installDir then
      match w.copyRes with
      | none =>
        { attempts := atts, discoveryRan := true, copyInvoked := true
          removalOffered := true
          removalAttempted := isYes w.deleteAnswer
          result := Except.ok () }
      | some _ =>
        { attempts := atts, discoveryRan := true, copyInvoked := true
          removalOffered := false, removalAttempted := false
          result := Except.ok () }
    else
      { attempts := atts, discoveryRan := true, copyInvoked := false
        removalOffered := false, removalAttempted := false
        result := Except.ok () }
  | none =>
    { attempts := atts, discoveryRan := true, copyInvoked := false
      removalOffered := false, removalAttempted := false
      result := Except.ok () }

/-- The installation directory actually used by `install_battlenet`
(src/main.rs:179-187): the trimmed prompt answer, or the default when it
is empty. -/
def bnetInstallDir (home : String) (w : BnetWorld) : String :=
  if rustTrim w.installDirInput = "" then home ++ "/Games/Battle.net"
  else rustTrim w.installDirInput

/-- Model of `install_battlenet` (src/main.rs:154-331).  The
`set_permissions` call and the `wineserver -k` cleanup only print, so they
leave no mark on the trace. -/
def install_battlenet (winePath home : String) (w : BnetWorld) : InstallTrace :=
  match w.mkBnetDir with
  | some e => errTrace [] ("Failed to create Battle.net directory: " ++ e)
  | none =>
  match (download_file w.dl).result with
  | Except.error e => errTrace [] e
  | Except.ok _ =>
  let installDir := bnetInstallDir home w
  match w.mkInstallDir with
  | some e => errTrace [] ("Failed to create installation directory: " ++ e)
  | none =>
  let silent := bnetSilentAttempt winePath home
  match w.silentRun with
  | Except.error e => errTrace [silent] ("Failed to execute wine command: " ++ e)
  | Except.ok code1 =>
  if code1.getD 1 = 0 then
    bnetPost w home installDir [silent]
  else
    let inter := bnetInteractiveAttempt winePath home
    match w.interactiveRun with
    | Except.error e =>
      errTrace [silent, inter] ("Failed to execute wine command: " ++ e)
    | Except.ok code2 =>
    if code2.getD 1 = 0 then
      bnetPost w home installDir [silent, inter]
    else if isYes w.continueAnswer then
      bnetPost w home installDir [silent, inter]
    else
      errTrace [silent, inter] "Operation cancelled based on installer error."

/-- External world consumed by `install_hoyoplay` (src/main.rs:334-458),
one field per external operation in source order. -/
structure HoyoWorld where
  /-- `fs::create_dir_all(home/.hoyoplay)`. -/
  mkHoyoDir : Option String
  /-- World threaded into the `download_file` call for the installer. -/
  dl : DlWorld
  /-- The line typed at the destination-folder prompt (untrimmed). -/
  destInput : String
  /-- `fs::create_dir_all(dest)`. -/
  mkDestDir : Option String
  /-- The single wine run: spawn error, or exit status. -/
  run : Except String ExitCode
  /-- Answer to "Would you like to continue anyway?" (untrimmed). -/
  continueAnswer : String
  /-- `hoyo_src.exists() && hoyo_src.is_dir()`. -/
  srcIsDir : Bool
  /-- Result of `copy_dir_recursive(hoyo_src, dest)`. -/
  copyRes : Option String
  /-- Result of `fs::remove_dir_all(hoyo_src)`. -/
  deleteRes : Option String

/-- Post-install copy and removal for HoYoPlay (src/main.rs:421-440):
whenever the conventional source directory exists the copy runs (no
comparison with the destination), a failed copy is a fatal error, and the
original is removed unconditionally — no yes/no offer — with a failed
removal also fatal. -/
def hoyoPost (w : HoyoWorld) (atts : List WineAttempt) : InstallTrace :=
  if w.srcIsDir then
    match w.copyRes with
    | some e =>
      { attempts := atts, discoveryRan := true, copyInvoked := true
        removalOffered := false, removalAttempted := false
        result := Except.error ("Failed to copy files: " ++ e) }
    | none =>
      match w.deleteRes with
      | some e =>
        { attempts := atts, discoveryRan := true, copyInvoked := true
          removalOffered := false, removalAttempted := true
          result := Except.error ("Failed to delete directory: " ++ e) }
      | none =>
        { attempts := atts, discoveryRan := true, copyInvoked := true
          removalOffered := false, removalAttempted := true
          result := Except.ok () }
  else
    { attempts := atts, discoveryRan := true, copyInvoked := false
      removalOffered := false, removalAttempted := false
      result := Except.ok () }

/-- Model of `install_hoyoplay` (src/main.rs:334-458).  There is exactly
one wine invocation; a non-zero exit leads directly to the continue/abort
question (no interactive retry), and the post-install copy runs for every
run that was not cancelled. -/
def install_hoyoplay (winePath home : String) (w : HoyoWorld) : InstallTrace :=
  match w.mkHoyoDir with
  | some e => errTrace [] ("Failed to create HoYoPlay directory: " ++ e)
  | none =>
  match (download_file w.dl).result with
  | Except.error e => errTrace [] e
  | Except.ok _ =>
  match w.mkDestDir with
  | some e => errTrace [] ("Failed to create directory: " ++ e)
  | none =>
  let att := hoyoAttempt winePath home
  match w.run with
  | Except.error e => errTrace [att] ("Failed to execute wine command: " ++ e)
  | Except.ok code =>
  if code.getD 1 = 0 then
    hoyoPost w [att]
  else if isYes w.continueAnswer then
    hoyoPost w [att]
  else
    errTrace [att] "Operation cancelled based on HoYoPlay installer error."

/-- A node of the modelled filesystem: a file (identified by its size) or
a directory with an ordered child list.  Paths are lists of component
names; the whole filesystem is one root `dir` node. -/
inductive FNode where
  | file : Nat → FNode
  | dir : List (String × FNode) → FNode
deriving Repr

/-- Look a child up in a directory's entry list. -/
def lookupChild : List (String × FNode) → String → Option FNode
  | [], _ => none
  | (n, v) :: rest, k => if n = k then some v else lookupChild rest k

/-- Insert or overwrite a child in a directory's entry list. -/
def setChild : List (String × FNode) → String → FNode → List (String × FNode)
  | [], k, v => [(k, v)]
  | (n, u) :: rest, k, v =>
    if n = k then (k, v) :: rest else (n, u) :: setChild rest k v

/-- Resolve a path from a node. -/
def FNode.get : FNode → List String → Option FNode
  | n, [] => some n
  | FNode.file _, _ :: _ => none
  | FNode.dir es, c :: p =>
    match lookupChild es c with
    | some ch => ch.get p
    | none => none

/-- `fs::create_dir_all`: create every missing component of the path as a
directory; fails (`none`) when a component already exists as a file. -/
def createDirAll : FNode → List String → Option FNode
  | FNode.dir es, [] => some (FNode.dir es)
  | FNode.file _, [] => none
  | FNode.file _, _ :: _ => none
  | FNode.dir es, c :: p =>
    match lookupChild es c with
    | some ch => (createDirAll ch p).map (fun ch2 => FNode.dir (setChild es c ch2))
    | none =>
      (createDirAll (FNode.dir []) p).map (fun ch2 => FNode.dir (setChild es c ch2))

/-- Whether the path resolves to a directory. -/
def isDirAt (fs : FNode) (p : List String) : Bool :=
  match fs.get p with
  | some (FNode.dir _) => true
  | _ => false

/-- `fs::read_dir`: the entry list of the directory at the path; fails on
a missing path or a file. -/
def fsReadDir (fs : FNode) (p : List String) : Option (List (String × FNode)) :=
  match fs.get p with
  | some (FNode.dir es) => some es
  | _ => none

/-- Write a file node at a path whose parent directory already exists;
fails when the parent is missing or when a directory already occupies the
target name (as `fs::copy` would). -/
def writeFileAt : FNode → List String → Nat → Option FNode
  | FNode.file _, _, _ => none
  | FNode.dir _, [], _ => none
  | FNode.dir es, [c], sz =>
    match lookupChild es c with
    | some (FNode.dir _) => none
    | _ => some (FNode.dir (setChild es c (FNode.file sz)))
  | FNode.dir es, c :: p1 :: p2, sz =>
    match lookupChild es c with
    | some ch =>
      (writeFileAt ch (p1 :: p2) sz).map (fun ch2 => FNode.dir (setChild es c ch2))
    | none => none

mutual

/-- Model of `copy_dir_recursive` (src/main.rs:461-480), state-passing on
the filesystem: create `dst` when absent, then enumerate `src` and copy
each entry (recursing on directories), failing fast on the first error.
The `fuel` argument only bounds the recursion depth — the source relies on
the filesystem being finite and the destination not being inside the
source; every claim proved below is independent of the fuel spent. -/
def copyDir : Nat → FNode → List String → List String →
    Except String Unit × FNode
  | 0, fs, _, _ => (Except.error "recursion limit", fs)
  | Nat.succ fuel, fs, src, dst =>
    match (if (fs.get dst).isSome then some fs else createDirAll fs dst) with
    | none => (Except.error "Failed to create destination directory", fs)
    | some fs1 =>
      match fsReadDir fs1 src with
      | none => (Except.error "Failed to read source directory", fs1)
      | some entries => copyEntries fuel fs1 src dst entries

/-- The body of `copy_dir_recursive`'s `for` loop over the entries of
`src`: recurse on directories, copy files byte-preservingly, stop at the
first error. -/
def copyEntries : Nat → FNode → List String → List String →
    List (String × FNode) → Except String Unit × FNode
  | _, fs, _, _, [] => (Except.ok (), fs)
  | fuel, fs, src, dst, (name, node) :: rest =>
    match node with
    | FNode.dir _ =>
      match copyDir fuel fs (src ++ [name]) (dst ++ [name]) with
      | (Except.ok _, fs2) => copyEntries fuel fs2 src dst rest
      | (Except.error e, fs2) => (Except.error e, fs2)
    | FNode.file _ =>
      match FNode.get fs (src ++ [name]) with
      | some (FNode.file sz) =>
        match writeFileAt fs (dst ++ [name]) sz with
        | some fs2 => copyEntries fuel fs2 src dst rest
        | none => (Except.error "Failed to copy file", fs)
      | _ => (Except.error "Failed to copy file", fs)

end

/-- The ASCII whitespace characters matched by the `\s` class of the
path-extraction regex in `find_steam_libraries`. -/
def isWs (c : Char) : Bool :=
  c = ' ' || c = '\t' || c = '\n' || c = '\x0b' || c = '\x0c' || c = '\r'

/-- Try to match the regex `"path"\s*"([^"]+)"` at the very start of the
character list: on success, return the captured value and the characters
following the match. -/
def matchPathAt : List Char → Option (List Char × List Char)
  | '"' :: 'p' :: 'a' :: 't' :: 'h' :: '"' :: rest =>
    match rest.dropWhile isWs with
    | '"' :: rest3 =>
      match rest3.takeWhile (fun c => c ≠ '"'), rest3.dropWhile (fun c => c ≠ '"') with
      | [], _ => none
      | v, '"' :: rest5 => some (v, rest5)
      | _, _ => none
    | _ => none
  | _ => none

/-- All successive non-overlapping leftmost matches of the regex, as
`Regex::captures_iter` yields them: try to match at the current position,
otherwise advance one character.  The fuel starts at the input length and
is an upper bound on the number of scanning steps (each step discards at
least one character). -/
def scanPathsAux : Nat → List Char → List (List Char)
  | 0, _ => []
  | _, [] => []
  | Nat.succ fuel, c :: cs =>
    match matchPathAt (c :: cs) with
    | some (v, rem) => v :: scanPathsAux fuel rem
    | none => scanPathsAux fuel cs

/-- The captured values of `"path"\s*"([^"]+)"` over the whole content,
in content order. -/
def scanPaths (cs : List Char) : List (List Char) :=
  scanPathsAux cs.length cs

/-- Replace every (leftmost, non-overlapping) occurrence of two
consecutive backslashes by one forward slash. -/
def replaceEscBackslash : List Char → List Char
  | '\\' :: '\\' :: rest => '/' :: replaceEscBackslash rest
  | c :: rest => c :: replaceEscBackslash rest
  | [] => []

/-- `path_match.as_str().replace("\\\\", "/")`: normalize escaped
backslash separators to forward slashes. -/
def normPath (v : List Char) : String :=
  String.mk (replaceEscBackslash v)

/-- Model of `find_steam_libraries` (src/main.rs:523-548).  The home
directory is a parameter; `vdfExists` models `library_vdf.exists()` and
`readRes` the outcome of `fs::read_to_string`.  The fold mirrors the
source's `libraries.push` loop over `captures_iter`. -/
def find_steam_libraries (home : String) (vdfExists : Bool)
    (readRes : Except String String) : Except String (List String) :=
  let steam_root := home ++ "/.steam/steam"
  let library_vdf := steam_root ++ "/steamapps/libraryfolders.vdf"
  if vdfExists = false then
    Except.error ("Could not find libraryfolders.vdf at " ++ library_vdf)
  else
    match readRes with
    | Except.error e =>
      Except.error ("Failed to read libraryfolders.vdf: " ++ e)
    | Except.ok content =>
      Except.ok ((scanPaths content.data).foldl
        (fun acc v => acc ++ [normPath v]) [steam_root])

/-- Split character content into its lines (at each newline, keeping
empty segments), as `str::lines`-style per-line processing would see
them. -/
def splitNl : List Char → List (List Char)
  | [] => [[]]
  | '\n' :: rest => [] :: splitNl rest
  | c :: rest =>
    match splitNl rest with
    | [] => [[c]]
    | l :: ls => (c :: l) :: ls

/-- The spec's own reading of the parser: per LINE of the file, the
values of the occurrences of the `"path" "<value>"` shape within that
line, in file order.  Kept separate from the source model so the two can
be compared: the source regex lets the whitespace between key and value
span a line break, which no single line exhibits. -/
def specLineValues (content : String) : List String :=
  ((splitNl content.data).map (fun l => (scanPaths l).map normPath)).flatten

/-- List-level core of `extract_appid` (src/main.rs:517-520), the regex
`\(([0-9]+)\)$`: the line must end in `)`, preceded by a non-empty run of
decimal digits, preceded by `(`; the digit run is returned. -/
def extractAppidCore (cs : List Char) : Option (List Char) :=
  match cs.reverse with
  | [] => none
  | c :: rest =>
    if c = ')' then
      let ds := rest.takeWhile Char.isDigit
      if ds = [] then none
      else
        match rest.dropWhile Char.isDigit with
        | [] => none
        | c2 :: _ => if c2 = '(' then some ds.reverse else none
    else none

/-- Model of `extract_appid` (src/main.rs:517-520). -/
def extract_appid (line : String) : Option String :=
  (extractAppidCore line.data).map String.mk

/-- The conventional compatibility-data subpath probed by
`find_prefix_path` for a library root (src/main.rs:553). -/
def compatPath (app_id root : String) : String :=
  root ++ "/steamapps/compatdata/" ++ app_id ++ "/pfx"

/-- Model of `find_prefix_path` (src/main.rs:551-559): walk the library
roots in order and return the first whose compatdata subpath is an
existing directory.  `isDir` models `exists() && is_dir()`. -/
def find_prefix_path (isDir : String → Bool) (app_id : String) :
    List String → Option String
  | [] => none
  | lib :: rest =>
    let compatdata := compatPath app_id lib
    if isDir compatdata then some compatdata
    else find_prefix_path isDir app_id rest

/-! Concrete example worlds used by the closed counterexample and witness
statements below. -/

/-- A host on which `which` exists (so both availability probes "succeed")
but neither curl nor wget is installed: spawning either tool fails with
the OS's not-found error. -/
def c2World : DlWorld :=
  { destPrior := none, mkParent := none
    whichCurlOk := true, whichWgetOk := true
    curlRun := Except.error "No such file or directory (os error 2)"
    wgetRun := Except.error "No such file or directory (os error 2)"
    send := Except.ok (), createFile := none
    bytesRes := Except.ok 1024, writeRes := none
    curlFailDest := none, wgetFailDest := none, remoteLen := 1024 }

/-- A download world whose destination already exists, so `download_file`
is an immediate no-op success; used to feed the installer examples. -/
def dlReadyWorld : DlWorld :=
  { destPrior := some 1, mkParent := none
    whichCurlOk := true, whichWgetOk := true
    curlRun := Except.ok 0, wgetRun := Except.ok 0
    send := Except.ok (), createFile := none
    bytesRes := Except.ok 1, writeRes := none
    curlFailDest := none, wgetFailDest := none, remoteLen := 1 }

/-- A download world that reaches the in-process HTTP path (neither
`which` probe could be spawned), sends the request successfully, creates
the destination file, and then fails while reading the response body. -/
def c9World : DlWorld :=
  { destPrior := none, mkParent := none
    whichCurlOk := false, whichWgetOk := false
    curlRun := Except.ok 0, wgetRun := Except.ok 0
    send := Except.ok (), createFile := none
    bytesRes := Except.error "connection reset by peer", writeRes := none
    curlFailDest := none, wgetFailDest := none, remoteLen := 9 }

/-- A second-call world for the idempotence witness: the destination now
exists (empty). -/
def c9World2 : DlWorld :=
  { c9World with destPrior := some 0 }

/-- A HoYoPlay run whose single wine invocation exits 1 and where the
operator answers "yes" to continue: the run completes with exactly one
attempt ever made. -/
def c1HoyoWorld : HoyoWorld :=
  { mkHoyoDir := none, dl := dlReadyWorld, destInput := ""
    mkDestDir := none, run := Except.ok (some 1), continueAnswer := "yes"
    srcIsDir := false, copyRes := none, deleteRes := none }

/-- A Battle.net run whose silent attempt exits 1 and whose interactive
attempt exits 0; discovery finds nothing. -/
def c1BnetWorld : BnetWorld :=
  { mkBnetDir := none, dl := dlReadyWorld, installDirInput := ""
    mkInstallDir := none, silentRun := Except.ok (some 1)
    interactiveRun := Except.ok (some 0), continueAnswer := ""
    locIsDir := fun _ => false, copyRes := none
    deleteAnswer := "no", deleteRes := none }

/-- A HoYoPlay run that completes (exit 0), finds the sandbox source,
copies it successfully, and then fails to remove the original. -/
def c3HoyoWorld : HoyoWorld :=
  { mkHoyoDir := none, dl := dlReadyWorld, destInput := ""
    mkDestDir := none, run := Except.ok (some 0), continueAnswer := ""
    srcIsDir := true, copyRes := none
    deleteRes := some "Permission denied (os error 13)" }

/-- A Battle.net run that completes silently, discovers the installation
under the sandbox's `Program Files`, copies it, and where the operator
declines the removal offer. -/
def c3BnetWorld : BnetWorld :=
  { mkBnetDir := none, dl := dlReadyWorld, installDirInput := "/opt/bnet"
    mkInstallDir := none, silentRun := Except.ok (some 0)
    interactiveRun := Except.ok (some 0), continueAnswer := ""
    locIsDir := fun s => s = "/home/user/.wine/drive_c/Program Files/Battle.net"
    copyRes := none, deleteAnswer := "no", deleteRes := none }

/-- A small filesystem: one file under the root. -/
def fsA : FNode := FNode.dir [("a", FNode.file 3)]

/-- `fsA` after `create_dir_all` of the destination `d`. -/
def fsA' : FNode := FNode.dir [("a", FNode.file 3), ("d", FNode.dir [])]

/-! Helper lemmas about the download model. -/

/-- When the destination already exists, `download_file` is an immediate
success that touches nothing. -/
theorem download_file_dest_exists (w : DlWorld) (n : Nat)
    (h : w.destPrior = some n) :
    download_file w = { result := Except.ok (), dest := some n, networkOps := 0 } := by
  simp [download_file, h]

/-- One `download_file` call starts at most one network transfer. -/
theorem download_file_netops_le_one (w : DlWorld) :
    (download_file w).networkOps ≤ 1 := by
  unfold download_file
  repeat' split
  all_goals simp

/-- Every success path of `download_file` leaves the destination file in
existence. -/
theorem download_file_ok_dest (w : DlWorld) :
    (download_file w).result = Except.ok () →
    (download_file w).dest.isSome = true := by
  unfold download_file
  repeat' split
  all_goals simp

/-- Claim C2 (code bug): on a host where neither curl nor wget is
installed but the `which` binary itself exists, `download_file` does NOT
fall back to the in-process HTTP client: the availability probe
`Command::new("which").arg("curl").status().is_ok()` only checks that
`which` could be spawned, so the code enters the curl branch, fails to
execute curl, and returns an error with no network transfer performed and
no destination file produced — contradicting the claimed (and specified)
fallback behaviour. -/
theorem c2_no_http_fallback_when_tools_absent :
    download_file c2World =
      { result := Except.error "Failed to execute curl: No such file or directory (os error 2)"
        dest := none, networkOps := 0 } := by
  rfl

/-- Claim C8: when the destination already exists, `download_file`
returns success immediately, performs no network transfer, and leaves the
destination untouched; one call performs at most one network transfer,
and after any successful call the destination exists, so a second call
whose prior destination state is the first call's outcome performs no
network transfer — two consecutive calls transfer at most once. -/
theorem c8_fetch_idempotent :
    (∀ (w : DlWorld) (n : Nat), w.destPrior = some n →
      download_file w = { result := Except.ok (), dest := some n, networkOps := 0 })
    ∧ (∀ w : DlWorld, (download_file w).networkOps ≤ 1)
    ∧ (∀ w w2 : DlWorld, (download_file w).result = Except.ok () →
        w2.destPrior = (download_file w).dest →
        (download_file w2).result = Except.ok ()
        ∧ (download_file w2).networkOps = 0
        ∧ (download_file w).networkOps + (download_file w2).networkOps ≤ 1) := by
  refine ⟨download_file_dest_exists, download_file_netops_le_one, ?_⟩
  intro w w2 hok hdest
  obtain ⟨n, hn⟩ := Option.isSome_iff_exists.mp (download_file_ok_dest w hok)
  rw [hn] at hdest
  have h2 := download_file_dest_exists w2 n hdest
  refine ⟨by rw [h2], by rw [h2], ?_⟩
  rw [h2]
  simpa using download_file_netops_le_one w

/-- Witness for C8 at concrete worlds: a call whose destination already
exists succeeds, and the call after a successful call transfers
nothing. -/
theorem c8_fetch_idempotent_witness :
    download_file dlReadyWorld =
      { result := Except.ok (), dest := some 1, networkOps := 0 }
    ∧ (download_file dlReadyWorld).result = Except.ok ()
    ∧ (download_file dlReadyWorld).networkOps = 0 := by
  refine ⟨c8_fetch_idempotent.1 dlReadyWorld 1 rfl, ?_⟩
  have h := c8_fetch_idempotent.2.2 dlReadyWorld dlReadyWorld rfl rfl
  exact ⟨h.1, h.2.1⟩

/-- Claim C9: if the in-process HTTP path is reached, the request is sent
successfully and the destination file created, but reading the response
body fails, then `download_file` returns an error while the destination
has been created and is left behind empty; a subsequent call with that
destination state succeeds at once with no network transfer. -/
theorem c9_body_read_failure_leaves_empty_file :
    ∀ (w : DlWorld) (e : String),
      w.destPrior = none → w.mkParent = none →
      w.whichCurlOk = false → w.whichWgetOk = false →
      w.send = Except.ok () → w.createFile = none →
      w.bytesRes = Except.error e →
      (download_file w).result =
        Except.error ("Failed to read response bytes: " ++ e)
      ∧ (download_file w).dest = some 0
      ∧ ∀ w2 : DlWorld, w2.destPrior = some 0 →
          (download_file w2).result = Except.ok ()
          ∧ (download_file w2).networkOps = 0 := by
  intro w e h1 h2 h3 h4 h5 h6 h7
  refine ⟨?_, ?_, ?_⟩
  · simp [download_file, h1, h2, h3, h4, h5, h6, h7]
  · simp [download_file, h1, h2, h3, h4, h5, h6, h7]
  · intro w2 h8
    simp [download_file, h8]

/-! Helper lemmas about the installer models. -/

/-- Whatever discovery finds, the Battle.net post-install phase keeps the
attempt list, marks discovery as run, and never fails. -/
theorem bnetPost_fields (w : BnetWorld) (home dir : String)
    (atts : List WineAttempt) :
    (bnetPost w home dir atts).attempts = atts
    ∧ (bnetPost w home dir atts).discoveryRan = true
    ∧ (bnetPost w home dir atts).result = Except.ok () := by
  unfold bnetPost
  repeat' split
  all_goals simp

/-- When Battle.net discovery finds a location that differs from the
requested destination, the copy is invoked, removal is offered exactly
when the copy succeeded, and removal is attempted exactly when it was
offered and accepted; the phase still succeeds. -/
theorem bnetPost_relocation (w : BnetWorld) (home dir : String)
    (atts : List WineAttempt) (src : String)
    (h1 : (bnetLocations home).find? w.locIsDir = some src)
    (h2 : src ≠ dir) :
    (bnetPost w home dir atts).copyInvoked = true
    ∧ (bnetPost w home dir atts).removalOffered = w.copyRes.isNone
    ∧ (bnetPost w home dir atts).removalAttempted =
        (w.copyRes.isNone && isYes w.deleteAnswer)
    ∧ (bnetPost w home dir atts).result = Except.ok () := by
  unfold bnetPost
  rw [h1]
  simp only [if_pos h2]
  cases w.copyRes <;> simp

/-- A Battle.net run whose trace shows discovery ran is exactly a run
that reached the post-install phase. -/
theorem install_battlenet_completes (winePath home : String) (w : BnetWorld) :
    (install_battlenet winePath home w).discoveryRan = true →
    ∃ atts, install_battlenet winePath home w =
      bnetPost w home (bnetInstallDir home w) atts := by
  unfold install_battlenet
  repeat' split
  all_goals first
  | exact fun _ => ⟨_, rfl⟩
  | (intro h; simp [errTrace] at h)

/-- Whenever the HoYoPlay source directory exists, the post-install phase
copies, never offers removal, attempts removal unconditionally after a
successful copy, and turns a failed removal into a fatal error. -/
theorem hoyoPost_policy (w : HoyoWorld) (atts : List WineAttempt)
    (h : w.srcIsDir = true) :
    (hoyoPost w atts).copyInvoked = true
    ∧ (hoyoPost w atts).removalOffered = false
    ∧ (w.copyRes = none → (hoyoPost w atts).removalAttempted = true)
    ∧ (∀ e, w.copyRes = none → w.deleteRes = some e →
        (hoyoPost w atts).result =
          Except.error ("Failed to delete directory: " ++ e)) := by
  unfold hoyoPost
  rw [h]
  cases hc : w.copyRes <;> cases hd : w.deleteRes <;> simp

/-- A HoYoPlay run whose trace shows discovery ran is exactly a run that
reached the post-install phase, always with the single attempt. -/
theorem install_hoyoplay_completes (winePath home : String) (w : HoyoWorld) :
    (install_hoyoplay winePath home w).discoveryRan = true →
    install_hoyoplay winePath home w = hoyoPost w [hoyoAttempt winePath home] := by
  unfold install_hoyoplay
  repeat' split
  all_goals first
  | exact fun _ => rfl
  | (intro h; simp [errTrace] at h)

/-- Witness for C9 at a concrete world. -/
theorem c9_body_read_failure_witness :
    (download_file c9World).result =
      Except.error "Failed to read response bytes: connection reset by peer"
    ∧ (download_file c9World).dest = some 0
    ∧ (download_file c9World2).result = Except.ok ()
    ∧ (download_file c9World2).networkOps = 0 := by
  have h := c9_body_read_failure_leaves_empty_file c9World
    "connection reset by peer" rfl rfl rfl rfl rfl rfl rfl
  have h2 := h.2.2 c9World2 rfl
  exact ⟨h.1, h.2.1, h2.1, h2.2⟩

/-- Claim C1 (amended): for the Battle.net install, a non-zero silent
exit is followed by exactly one second attempt whose argument list is the
installer path alone and whose environment is the silent overlay minus
`WINEDLLOVERRIDES` and `DISPLAY`; a zero exit of that second attempt
completes the install successfully with post-install discovery (and,
when the discovered location differs from the destination, relocation)
still running.  The HoYoPlay install, by contrast, never makes more than
one attempt. -/
theorem c1_silent_then_interactive_fallback :
    (∀ (winePath home : String) (w : BnetWorld) (s : Int),
      w.mkBnetDir = none →
      (download_file w.dl).result = Except.ok () →
      w.mkInstallDir = none →
      w.silentRun = Except.ok (some s) → s ≠ 0 →
      w.interactiveRun = Except.ok (some 0) →
      (install_battlenet winePath home w).attempts =
        [bnetSilentAttempt winePath home, bnetInteractiveAttempt winePath home]
      ∧ (bnetInteractiveAttempt winePath home).args = [bnetInstaller home]
      ∧ (bnetInteractiveAttempt winePath home).env =
          (wineFullEnv home).filter
            (fun kv => kv.1 ≠ "WINEDLLOVERRIDES" && kv.1 ≠ "DISPLAY")
      ∧ (install_battlenet winePath home w).result = Except.ok ()
      ∧ (install_battlenet winePath home w).discoveryRan = true
      ∧ (∀ src, (bnetLocations home).find? w.locIsDir = some src →
          src ≠ bnetInstallDir home w →
          (install_battlenet winePath home w).copyInvoked = true))
    ∧ (∀ (winePath home : String) (w : HoyoWorld),
        (install_hoyoplay winePath home w).attempts.length ≤ 1) := by
  constructor
  · intro winePath home w s h1 h2 h3 h4 h5 h6
    have hred : install_battlenet winePath home w =
        bnetPost w home (bnetInstallDir home w)
          [bnetSilentAttempt winePath home, bnetInteractiveAttempt winePath home] := by
      unfold install_battlenet
      rw [h1, h2, h3, h4, h6]
      simp [h5]
    rw [hred]
    obtain ⟨ha, hd, hr⟩ := bnetPost_fields w home (bnetInstallDir home w)
      [bnetSilentAttempt winePath home, bnetInteractiveAttempt winePath home]
    refine ⟨ha, rfl, rfl, hr, hd, ?_⟩
    intro src hsrc hne
    exact (bnetPost_relocation w home (bnetInstallDir home w) _ src hsrc hne).1
  · intro winePath home w
    unfold install_hoyoplay hoyoPost errTrace
    repeat' split
    all_goals simp

/-- Witness for the amended C1 at a concrete Battle.net world whose
silent attempt exits 1 and whose interactive attempt exits 0. -/
theorem c1_fallback_witness :
    (install_battlenet "wine" "/home/user" c1BnetWorld).attempts =
      [bnetSilentAttempt "wine" "/home/user",
       bnetInteractiveAttempt "wine" "/home/user"]
    ∧ (install_battlenet "wine" "/home/user" c1BnetWorld).result = Except.ok ()
    ∧ (install_battlenet "wine" "/home/user" c1BnetWorld).discoveryRan = true := by
  have h := c1_silent_then_interactive_fallback.1 "wine" "/home/user"
    c1BnetWorld 1 rfl rfl rfl rfl (by decide) rfl
  exact ⟨h.1, h.2.2.2.1, h.2.2.2.2.1⟩

/-- Counterexample to C1 as stated: a HoYoPlay install run whose first
(and only) wine invocation exits 1 makes no second attempt at all — the
whole run ends with exactly one attempt (the operator answering "yes" to
the continue prompt), not two. -/
theorem c1_hoyoplay_no_second_attempt_cex :
    c1HoyoWorld.run = Except.ok (some 1)
    ∧ (install_hoyoplay "wine" "/home/user" c1HoyoWorld).attempts.length = 1
    ∧ (install_hoyoplay "wine" "/home/user" c1HoyoWorld).result = Except.ok () :=
  ⟨rfl, rfl, rfl⟩

/-- Claim C3 (amended): for every completed Battle.net install whose
discovered location differs from the requested destination, the tree copy
is invoked, removal of the sandbox original is offered exactly when the
copy succeeded, removal happens only when the offer is accepted, and
neither declining nor a failed removal (nor a failed copy) is an error.
For every completed HoYoPlay install whose sandbox source exists, the
copy is invoked without comparing locations, removal is never offered but
performed unconditionally after a successful copy, and a failed removal
is a fatal error. -/
theorem c3_relocation_and_removal_policy :
    (∀ (winePath home : String) (w : BnetWorld) (src : String),
      (install_battlenet winePath home w).discoveryRan = true →
      (bnetLocations home).find? w.locIsDir = some src →
      src ≠ bnetInstallDir home w →
      (install_battlenet winePath home w).copyInvoked = true
      ∧ (install_battlenet winePath home w).removalOffered = w.copyRes.isNone
      ∧ (install_battlenet winePath home w).removalAttempted =
          (w.copyRes.isNone && isYes w.deleteAnswer)
      ∧ (install_battlenet winePath home w).result = Except.ok ())
    ∧ (∀ (winePath home : String) (w : HoyoWorld),
        (install_hoyoplay winePath home w).discoveryRan = true →
        w.srcIsDir = true →
        (install_hoyoplay winePath home w).copyInvoked = true
        ∧ (install_hoyoplay winePath home w).removalOffered = false
        ∧ (w.copyRes = none →
            (install_hoyoplay winePath home w).removalAttempted = true)
        ∧ (∀ e, w.copyRes = none → w.deleteRes = some e →
            (install_hoyoplay winePath home w).result =
              Except.error ("Failed to delete directory: " ++ e))) := by
  constructor
  · intro winePath home w src hdisc hsrc hne
    obtain ⟨atts, hred⟩ := install_battlenet_completes winePath home w hdisc
    rw [hred]
    exact bnetPost_relocation w home (bnetInstallDir home w) atts src hsrc hne
  · intro winePath home w hdisc hsrcd
    rw [install_hoyoplay_completes winePath home w hdisc]
    exact hoyoPost_policy w [hoyoAttempt winePath home] hsrcd

/-- Witness for the amended C3 at a concrete Battle.net world: the
discovered `Program Files` location differs from the requested
`/opt/bnet`, the copy succeeds, and the operator declines removal. -/
theorem c3_relocation_witness :
    (install_battlenet "wine" "/home/user" c3BnetWorld).copyInvoked = true
    ∧ (install_battlenet "wine" "/home/user" c3BnetWorld).removalOffered = true
    ∧ (install_battlenet "wine" "/home/user" c3BnetWorld).removalAttempted = false
    ∧ (install_battlenet "wine" "/home/user" c3BnetWorld).result = Except.ok () := by
  have h := c3_relocation_and_removal_policy.1 "wine" "/home/user" c3BnetWorld
    "/home/user/.wine/drive_c/Program Files/Battle.net" rfl rfl (by decide)
  exact ⟨h.1, h.2.1.trans rfl, h.2.2.1.trans rfl, h.2.2.2⟩

/-- Counterexample to C3 as stated: a completed HoYoPlay install whose
discovered sandbox copy differs from the requested destination relocates
it, but removal of the original is not offered as a decision — it is
attempted unconditionally — and its failure makes the whole install
return an error. -/
theorem c3_hoyoplay_unconditional_removal_cex :
    (install_hoyoplay "wine" "/home/user" c3HoyoWorld).copyInvoked = true
    ∧ (install_hoyoplay "wine" "/home/user" c3HoyoWorld).removalOffered = false
    ∧ (install_hoyoplay "wine" "/home/user" c3HoyoWorld).removalAttempted = true
    ∧ (install_hoyoplay "wine" "/home/user" c3HoyoWorld).result =
        Except.error "Failed to delete directory: Permission denied (os error 13)" :=
  ⟨rfl, rfl, rfl, rfl⟩

/-! Helper lemmas about the library parser. -/

/-- Pushing mapped elements one by one onto an accumulator is the
accumulator followed by the mapped list. -/
theorem foldl_push_eq_map {α β : Type} (f : α → β) :
    ∀ (l : List α) (init : List β),
      l.foldl (fun acc v => acc ++ [f v]) init = init ++ l.map f := by
  intro l
  induction l with
  | nil => intro init; simp
  | cons a t ih => intro init; simp [List.foldl_cons, ih]

/-- The parse loop of `find_steam_libraries` on a readable file yields
the primary root followed by the normalized captures, in content order. -/
theorem find_steam_libraries_readable (home content : String) :
    find_steam_libraries home true (Except.ok content) =
      Except.ok ((home ++ "/.steam/steam") ::
        (scanPaths content.data).map normPath) := by
  unfold find_steam_libraries
  simp [foldl_push_eq_map]

/-- Claim C4 (amended): `find_steam_libraries` fails exactly when the
library-description file is missing or cannot be read; every readable
file — a totally empty one included — is parsed without a hard failure,
yielding the primary root first. -/
theorem c4_locator_fatal_only_when_unreadable :
    (∀ (home : String) (r : Except String String),
      find_steam_libraries home false r =
        Except.error ("Could not find libraryfolders.vdf at " ++
          (home ++ "/.steam/steam" ++ "/steamapps/libraryfolders.vdf")))
    ∧ (∀ home e : String,
      find_steam_libraries home true (Except.error e) =
        Except.error ("Failed to read libraryfolders.vdf: " ++ e))
    ∧ (∀ home content : String, ∃ roots : List String,
      find_steam_libraries home true (Except.ok content) = Except.ok roots
      ∧ roots.head? = some (home ++ "/.steam/steam")) := by
  refine ⟨?_, ?_, ?_⟩
  · intro home r
    simp [find_steam_libraries]
  · intro home e
    simp [find_steam_libraries]
  · intro home content
    exact ⟨_, find_steam_libraries_readable home content, by simp⟩

/-- Counterexample to C4 as stated: a present but totally empty
library-description file is NOT fatal — it parses to just the primary
root. -/
theorem c4_empty_file_not_fatal_cex :
    find_steam_libraries "/home/user" true (Except.ok "") =
      Except.ok ["/home/user/.steam/steam"] :=
  rfl

/-- Claim C5 (amended): for every readable library-description file the
returned list is the primary root followed, in file order, by the
captured values of the occurrences of the quoted path-key / value pattern
in the file content (the whitespace between key and value may span a line
break), each with escaped-backslash separators normalized to forward
slashes; duplicates are kept, and no existence check is performed (the
parse consumes nothing but the text). -/
theorem c5_parser_returns_matches_in_order :
    (∀ (home content : String),
      find_steam_libraries home true (Except.ok content) =
        Except.ok ((home ++ "/.steam/steam") ::
          (scanPaths content.data).map normPath))
    ∧ (∀ home : String,
      find_steam_libraries home true
          (Except.ok "\x7b\n\t\"k\" \"v\"\n\t\"path\" \"/mnt/a\"\n\t\"path\" \"/mnt/a\"\n\x7d") =
        Except.ok [home ++ "/.steam/steam", "/mnt/a", "/mnt/a"]) := by
  refine ⟨find_steam_libraries_readable, ?_⟩
  intro home
  rw [find_steam_libraries_readable]
  rfl

/-- Counterexample to C5 as stated: content where the `"path"` key and
the quoted value sit on different lines.  No single LINE matches the
`"path" "<value>"` shape (the per-line reading yields nothing), yet the
code's regex match spans the line break and the returned list does carry
the value. -/
theorem c5_match_spans_lines_cex :
    find_steam_libraries "/home/user" true (Except.ok "\"path\"\n\"X\"") =
      Except.ok ["/home/user/.steam/steam", "X"]
    ∧ specLineValues "\"path\"\n\"X\"" = [] :=
  ⟨rfl, rfl⟩

/-- Claim C7: `find_prefix_path` returns the compatdata subpath under the
first root, in list order, whose subpath is an existing directory (and
`none` when no root qualifies); in particular, with two qualifying roots
the path under the first is returned. -/
theorem c7_resolve_first_qualifying_root :
    (∀ (isDir : String → Bool) (app_id : String) (roots : List String),
      find_prefix_path isDir app_id roots =
        (roots.find? (fun r => isDir (compatPath app_id r))).map (compatPath app_id))
    ∧ (∀ (isDir : String → Bool) (app_id a b : String),
      isDir (compatPath app_id a) = true →
      isDir (compatPath app_id b) = true →
      find_prefix_path isDir app_id [a, b] = some (compatPath app_id a)) := by
  constructor
  · intro isDir app_id roots
    induction roots with
    | nil => rfl
    | cons lib rest ih =>
      by_cases h : isDir (compatPath app_id lib)
      · simp [find_prefix_path, List.find?, h]
      · simp only [Bool.not_eq_true] at h
        simp [find_prefix_path, List.find?, h, ih]
  · intro isDir app_id a b ha _
    simp [find_prefix_path, ha]

/-- Witness for C7: both roots hold the sandbox subpath; the path under
the first root `A` is returned. -/
theorem c7_resolve_order_witness :
    find_prefix_path (fun _ => true) "1234567" ["/libA", "/libB"] =
      some (compatPath "1234567" "/libA") :=
  c7_resolve_first_qualifying_root.2 (fun _ => true) "1234567" "/libA" "/libB" rfl rfl

/-! Helper lemmas about `takeWhile` / `dropWhile`, used to characterize
the trailing-identifier extraction. -/

/-- Every element of `takeWhile q l` satisfies `q`. -/
theorem all_takeWhile_sat {α : Type} (q : α → Bool) :
    ∀ l : List α, (l.takeWhile q).all q = true := by
  intro l
  induction l with
  | nil => rfl
  | cons a t ih =>
    by_cases h : q a
    · simp [List.takeWhile, h, ih]
    · simp only [Bool.not_eq_true] at h
      simp [List.takeWhile, h]

/-- `takeWhile` / `dropWhile` split a list at the first element violating
the predicate. -/
theorem takeWhile_all_append {α : Type} (q : α → Bool) (c : α) (l2 : List α) :
    ∀ l1 : List α, l1.all q = true → q c = false →
      ((l1 ++ c :: l2).takeWhile q = l1 ∧ (l1 ++ c :: l2).dropWhile q = c :: l2) := by
  intro l1
  induction l1 with
  | nil =>
    intro _ hc
    simp [List.takeWhile, List.dropWhile, hc]
  | cons a t ih =>
    intro ha hc
    simp only [List.all_cons, Bool.and_eq_true] at ha
    obtain ⟨h1, h2⟩ := ha
    obtain ⟨iht, ihd⟩ := ih h2 hc
    simp [List.takeWhile, List.dropWhile, h1, iht, ihd]

/-- `extractAppidCore` succeeds with `d` exactly when the line is some
prefix followed by `(`, the non-empty digit run `d`, and a final `)`. -/
theorem extractAppidCore_iff (cs d : List Char) :
    extractAppidCore cs = some d ↔
      (d ≠ [] ∧ d.all Char.isDigit = true ∧
        ∃ p : List Char, cs = p ++ '(' :: (d ++ [')'])) := by
  constructor
  · intro h
    unfold extractAppidCore at h
    cases hrev : cs.reverse with
    | nil => rw [hrev] at h; simp at h
    | cons c rest =>
      rw [hrev] at h
      simp only at h
      by_cases hc : c = ')'
      swap
      · simp [hc] at h
      rw [if_pos hc] at h
      by_cases hds : rest.takeWhile Char.isDigit = []
      · simp [hds] at h
      rw [if_neg hds] at h
      cases hdrop : rest.dropWhile Char.isDigit with
      | nil => rw [hdrop] at h; simp at h
      | cons c2 tl =>
        rw [hdrop] at h
        simp only at h
        by_cases hc2 : c2 = '('
        swap
        · simp [hc2] at h
        rw [if_pos hc2] at h
        simp only [Option.some.injEq] at h
        subst hc hc2
        have hrest : rest = rest.takeWhile Char.isDigit ++ '(' :: tl := by
          conv_lhs => rw [← List.takeWhile_append_dropWhile (p := Char.isDigit) (l := rest)]
          rw [hdrop]
        refine ⟨?_, ?_, ?_⟩
        · intro hd
          rw [← h, List.reverse_eq_nil_iff] at hd
          exact hds hd
        · rw [← h]
          simp only [List.all_reverse]
          exact all_takeWhile_sat Char.isDigit rest
        · refine ⟨tl.reverse, ?_⟩
          have hcs := congrArg List.reverse hrev
          rw [List.reverse_reverse] at hcs
          rw [hcs, hrest, ← h]
          simp
  · rintro ⟨hne, hall, p, rfl⟩
    have hrev : (p ++ '(' :: (d ++ [')'])).reverse =
        ')' :: (d.reverse ++ '(' :: p.reverse) := by simp
    have hdigall : (d.reverse).all Char.isDigit = true := by
      simpa [List.all_reverse] using hall
    have hpar : Char.isDigit '(' = false := by decide
    obtain ⟨htake, hdropw⟩ :=
      takeWhile_all_append Char.isDigit '(' p.reverse d.reverse hdigall hpar
    unfold extractAppidCore
    rw [hrev]
    simp only [if_true]
    rw [htake, hdropw]
    have hdne : d.reverse ≠ [] := by simpa using hne
    rw [if_neg hdne]
    simp

/-- Claim C6: the extraction returns the digit run exactly for lines
ending in that parenthesized run — a parenthesized number anywhere
earlier in the line yields nothing; with the spec's concrete examples. -/
theorem c6_extract_trailing_parenthesized_id :
    (∀ cs d : List Char, extractAppidCore cs = some d ↔
      (d ≠ [] ∧ d.all Char.isDigit = true ∧
        ∃ p : List Char, cs = p ++ '(' :: (d ++ [')'])))
    ∧ extract_appid "... Non-Steam shortcut: HoYoPlay (1234567)" = some "1234567"
    ∧ extract_appid "... no id here" = none
    ∧ extract_appid "(7890123) Non-Steam shortcut" = none :=
  ⟨extractAppidCore_iff, rfl, rfl, rfl⟩

/-! Helper lemmas about the filesystem model, for the tree-copy claim. -/

/-- Setting a child makes it the one found under its name. -/
theorem lookupChild_setChild (k : String) (v : FNode) :
    ∀ es : List (String × FNode), lookupChild (setChild es k v) k = some v := by
  intro es
  induction es with
  | nil => simp [setChild, lookupChild]
  | cons a rest ih =>
    obtain ⟨n, u⟩ := a
    by_cases h : n = k
    · simp [setChild, h, lookupChild]
    · simp [setChild, h, lookupChild, ih]

/-- After a successful `create_dir_all`, the created path is a
directory. -/
theorem createDirAll_isDir :
    ∀ (p : List String) (fs fs1 : FNode),
      createDirAll fs p = some fs1 → isDirAt fs1 p = true := by
  intro p
  induction p with
  | nil =>
    intro fs fs1 h
    cases fs with
    | file sz => simp [createDirAll] at h
    | dir es =>
      simp only [createDirAll, Option.some.injEq] at h
      subst h
      rfl
  | cons c p ih =>
    intro fs fs1 h
    cases fs with
    | file sz => simp [createDirAll] at h
    | dir es =>
      unfold createDirAll at h
      cases hlk : lookupChild es c with
      | some ch =>
        rw [hlk] at h
        simp only [Option.map_eq_some'] at h
        obtain ⟨ch2, hch2, rfl⟩ := h
        simp only [isDirAt, FNode.get, lookupChild_setChild]
        exact ih ch ch2 hch2
      | none =>
        rw [hlk] at h
        simp only [Option.map_eq_some'] at h
        obtain ⟨ch2, hch2, rfl⟩ := h
        simp only [isDirAt, FNode.get, lookupChild_setChild]
        exact ih (FNode.dir []) ch2 hch2

/-- A path that is a directory exists. -/
theorem isDirAt_isSome (fs : FNode) (p : List String) :
    isDirAt fs p = true → (fs.get p).isSome = true := by
  unfold isDirAt
  cases hg : fs.get p with
  | none => simp
  | some n => cases n <;> simp

/-- Claim C10: `copy_dir_recursive` creates the destination before
reading the source.  Whenever the destination handling succeeds (it is
already present, or gets created) but the source is not an enumerable
directory, the call returns an error while leaving the filesystem in the
post-destination-creation state: the destination now exists, was created
as a directory when previously absent, and the filesystem is unchanged
only in the case where the destination already existed. -/
theorem c10_destination_created_before_source_read :
    ∀ (fuel : Nat) (fs fs1 : FNode) (src dst : List String),
      (if (fs.get dst).isSome then some fs else createDirAll fs dst) = some fs1 →
      isDirAt fs1 src = false →
      copyDir (fuel + 1) fs src dst =
        (Except.error "Failed to read source directory", fs1)
      ∧ (fs1.get dst).isSome = true
      ∧ ((fs.get dst).isSome = false → isDirAt fs1 dst = true)
      ∧ ((fs.get dst).isSome = true → fs1 = fs) := by
  intro fuel fs fs1 src dst h1 h2
  have hread : fsReadDir fs1 src = none := by
    unfold fsReadDir
    unfold isDirAt at h2
    cases hg : fs1.get src with
    | none => rfl
    | some n =>
      cases n with
      | file sz => rfl
      | dir es => rw [hg] at h2; simp at h2
  have hcreate : (fs.get dst).isSome = false → isDirAt fs1 dst = true := by
    intro hex
    rw [if_neg (by simp [hex])] at h1
    exact createDirAll_isDir dst fs fs1 h1
  have hsame : (fs.get dst).isSome = true → fs1 = fs := by
    intro hex
    rw [if_pos hex] at h1
    exact (Option.some.injEq fs fs1).mp h1 |>.symm
  refine ⟨?_, ?_, hcreate, hsame⟩
  · show copyDir (Nat.succ fuel) fs src dst = _
    unfold copyDir
    rw [h1]
    simp only
    rw [hread]
  · by_cases hex : (fs.get dst).isSome = true
    · rw [hsame hex]; exact hex
    · simp only [Bool.not_eq_true] at hex
      exact isDirAt_isSome fs1 dst (hcreate hex)

/-- Witness for C10 at a concrete filesystem: copying the missing
directory `missing` onto the absent destination `d` fails, yet leaves
`d` created as a directory. -/
theorem c10_destination_created_witness :
    copyDir 5 fsA ["missing"] ["d"] =
      (Except.error "Failed to read source directory", fsA')
    ∧ (fsA'.get ["d"]).isSome = true
    ∧ isDirAt fsA' ["d"] = true := by
  have h := c10_destination_created_before_source_read 4 fsA fsA'
    ["missing"] ["d"] rfl rfl
  exact ⟨h.1, h.2.1, h.2.2.1 rfl⟩

/-- Witness for the amended C4: parsing a readable file of unrelated
content is not fatal and yields the primary root first. -/
theorem c4_locator_witness :
    ∃ roots : List String,
      find_steam_libraries "/home/user" true (Except.ok "no paths in here") =
        Except.ok roots
      ∧ roots.head? = some ("/home/user" ++ "/.steam/steam") :=
  c4_locator_fatal_only_when_unreadable.2.2 "/home/user" "no paths in here"

/-- Witness for the amended C5: the duplicated-path file parses to the
primary root followed by both occurrences, in order. -/
theorem c5_parser_witness :
    find_steam_libraries "/home/user" true
        (Except.ok "\x7b\n\t\"k\" \"v\"\n\t\"path\" \"/mnt/a\"\n\t\"path\" \"/mnt/a\"\n\x7d") =
      Except.ok ["/home/user" ++ "/.steam/steam", "/mnt/a", "/mnt/a"] :=
  c5_parser_returns_matches_in_order.2 "/home/user"

/-- Witness for C6: the characterization instantiated on a concrete
trailing-identifier line. -/
theorem c6_extract_witness :
    extractAppidCore ("shortcut (42)").data = some ['4', '2'] :=
  (c6_extract_trailing_parenthesized_id.1 ("shortcut (42)").data ['4', '2']).mpr
    ⟨by decide, by decide, ⟨("shortcut ").data, by decide⟩⟩

end SLI
